import Mathlib

/-!
# Verification of the XAxis component of victory-native-xl (fork)

Shallow embedding of the two source files
`src/lib/src/cartesian/components/XAxis.tsx` (namespace `Lib`) and
`src/unnamed/part_000` (namespace `PartZero`), a fork variant of the same
component in which the label fit test is hardcoded to `true` and the zoom
rescale reads a persistent `matrixRef`.

JavaScript numbers are modelled as rationals (`ℚ`); `undefined` as `Option`.
External d3 linear scales are modelled by their two-point domain/range data
and the documented interpolation formula; tick generation (`scale.ticks`) and
`getOffsetFromAngle` are kept abstract as explicit function parameters, so all
theorems quantify over them.
-/

/-- A d3-style linear scale, represented by its domain and range lists
(the chart always passes two-point domains/ranges; destructuring defaults in
the component cover shorter lists). -/
structure Scale where
  domain : List ℚ
  range : List ℚ
  deriving DecidableEq

/-- Application of a d3 linear scale with a two-point domain:
linear interpolation from domain to range. -/
def Scale.apply (s : Scale) (x : ℚ) : ℚ :=
  let d0 := s.domain.getD 0 0
  let d1 := s.domain.getD 1 0
  let r0 := s.range.getD 0 0
  let r1 := s.range.getD 1 0
  r0 + (x - d0) / (d1 - d0) * (r1 - r0)

/-- Inverse of a d3 linear scale (`scale.invert`). -/
def Scale.invert (s : Scale) (y : ℚ) : ℚ :=
  let d0 := s.domain.getD 0 0
  let d1 := s.domain.getD 1 0
  let r0 := s.range.getD 0 0
  let r1 := s.range.getD 1 0
  d0 + (y - r0) / (r1 - r0) * (d1 - d0)

/-- A d3-zoom transform `new ZoomTransform(k, x, y)`. -/
structure ZoomTransform where
  k : ℚ
  x : ℚ
  y : ℚ
  deriving DecidableEq

/-- `transform.invertX(x) = (x - tx) / k`. -/
def ZoomTransform.invertX (t : ZoomTransform) (px : ℚ) : ℚ :=
  (px - t.x) / t.k

/-- `transform.rescaleX(x)`: a copy of the scale whose domain is
`x.range().map(t.invertX, t).map(x.invert, x)` (d3-zoom documentation). -/
def ZoomTransform.rescaleX (t : ZoomTransform) (s : Scale) : Scale :=
  { s with domain := (s.range.map t.invertX).map s.invert }

/-- A Skia font handle: its size, plus glyph measurement
(`getGlyphIDs` / `getGlyphWidths`). -/
structure Font where
  size : ℚ
  getGlyphIDs : String → List ℕ
  getGlyphWidths : List ℕ → List ℚ

/-- A value of an input field (`ValueOf<InputDatum>`): a number or a string. -/
inductive IxVal where
  | num (q : ℚ)
  | str (s : String)
  deriving DecidableEq

/-- JavaScript array indexing `ix[tick]` with an arbitrary number index:
yields the element when `tick` is an integer in range, `undefined`
(i.e. `none`) otherwise — it never throws. -/
def jsIndex (ix : List IxVal) (tick : ℚ) : Option IxVal :=
  if tick.den = 1 ∧ 0 ≤ tick.num then ix.get? tick.num.toNat else none

/-- `tick` is an actual index of `ix`. -/
def validIndex (ix : List IxVal) (tick : ℚ) : Prop :=
  tick.den = 1 ∧ 0 ≤ tick.num ∧ tick.num.toNat < ix.length

instance (ix : List IxVal) (tick : ℚ) : Decidable (validIndex ix tick) := by
  unfold validIndex; infer_instance

/-- The default `formatXLabel`, `(label) => String(label)`, parametrised by
the JavaScript number-to-string conversion `numToString`;
`String(undefined) = "undefined"`. -/
def defaultFormatXLabel (numToString : ℚ → String) : Option IxVal → String :=
  fun v =>
    match v with
    | none => "undefined"
    | some (IxVal.num q) => numToString q
    | some (IxVal.str s) => s

/-- Modelled from the spec: `DEFAULT_TICK_COUNT` (from `utils/tickHelpers`,
not among the sources) is 5. -/
def DEFAULT_TICK_COUNT : ℕ := 5

/-- Modelled from the spec: `downsampleTicks` (from `utils/tickHelpers`, not
among the sources) down-samples an explicit tick list to at most `tickCount`
entries, keeping every n-th tick when the list is longer than `tickCount`. -/
def downsampleTicks (ticks : List ℚ) (tickCount : ℕ) : List ℚ :=
  if ticks.length ≤ tickCount then ticks
  else
    let n := (ticks.length + tickCount - 1) / tickCount
    ((List.range tickCount).map (fun j => j * n)).filterMap ticks.get?

theorem downsampleTicks_length_le (ticks : List ℚ) (tickCount : ℕ) :
    (downsampleTicks ticks tickCount).length ≤ tickCount := by
  unfold downsampleTicks
  split
  · assumption
  · refine le_trans (List.length_filterMap_le _ _) ?_
    simp

/-- `axisSide` prop. -/
inductive AxisSide where
  | bottom
  | top
  deriving DecidableEq

/-- `yAxisSide` prop. -/
inductive YAxisSide where
  | left
  | right
  deriving DecidableEq

/-- `labelPosition` prop. -/
inductive LabelPosition where
  | outset
  | inset
  deriving DecidableEq

/-- `chartBounds` prop. -/
structure ChartBounds where
  left : ℚ
  right : ℚ
  top : ℚ
  bottom : ℚ
  deriving DecidableEq

/-- A drawing primitive emitted by one `XAxle`: either the gridline
(a `Points` element with its two endpoints) or the tick label
(a `Text` element with its geometry). -/
inductive RenderNode where
  | line (p1 p2 : ℚ × ℚ) (color : String) (strokeWidth : ℚ) (hasPathEffect : Bool)
  | label (text : String) (x y : ℚ) (rotateOffset : ℚ)
      (origin : Option (ℚ × ℚ)) (rotateDeg : ℚ) (color : String)
  deriving DecidableEq

/-- `RenderNode.line`? -/
def RenderNode.isLine : RenderNode → Bool
  | RenderNode.line _ _ _ _ _ => true
  | _ => false

/-- `RenderNode.label`? -/
def RenderNode.isLabel : RenderNode → Bool
  | RenderNode.label _ _ _ _ _ _ _ => true
  | _ => false

/-- The props the axis container forwards unchanged to every `XAxle`
(after the leaf's destructuring defaults have been applied). -/
structure RestProps where
  axisSide : AxisSide
  yAxisSide : YAxisSide
  labelPosition : LabelPosition
  labelRotate : Option ℚ
  labelOffset : ℚ
  labelColor : String
  lineWidth : ℚ
  lineColor : String
  formatXLabel : Option IxVal → String
  ix : List IxVal
  isNumericalData : Bool
  linePathEffect : Bool
  chartBounds : ChartBounds

/-- The full props of one `XAxle` leaf: the forwarded rest props plus the
per-tick data computed by the container. -/
structure AxleProps extends RestProps where
  xScale : Scale
  yScale : Scale
  tick : ℚ
  y1 : ℚ
  y2 : ℚ
  fontSize : ℚ
  font : Option Font

namespace Axle

/-- `const val = isNumericalData ? tick : ix[tick]` — `none` is
JavaScript `undefined`. -/
def val (p : AxleProps) : Option IxVal :=
  if p.isNumericalData then some (IxVal.num p.tick) else jsIndex p.ix p.tick

/-- `const contentX = formatXLabel(val as never)`. -/
def contentX (p : AxleProps) : String :=
  p.formatXLabel (val p)

/-- `labelWidth`: the glyph widths of the formatted label summed by
`reduce((sum, value) => sum + value, 0)`, `?? 0` when there is no font. -/
def labelWidth (p : AxleProps) : ℚ :=
  match p.font with
  | some f => (f.getGlyphWidths (f.getGlyphIDs (contentX p))).foldl (fun sum value => sum + value) 0
  | none => 0

/-- `const labelX = xScale(tick) - (labelWidth ?? 0) / 2`. -/
def labelX (p : AxleProps) : ℚ :=
  p.xScale.apply p.tick - labelWidth p / 2

/-- `canFitLabelContent` as computed in `src/lib/src/cartesian/components/XAxis.tsx`:
the tick position is inside the chart bounds and the label does not run over
the y-axis side opposite to the data area. -/
def canFitLabelContent (p : AxleProps) : Bool :=
  decide (p.chartBounds.left ≤ p.xScale.apply p.tick) &&
  decide (p.xScale.apply p.tick ≤ p.chartBounds.right) &&
  (match p.yAxisSide with
   | YAxisSide.left => decide (labelX p + labelWidth p < p.chartBounds.right)
   | YAxisSide.right => decide (p.chartBounds.left < labelX p))

/-- `canFitLabelContent` as computed in `src/unnamed/part_000`: hardcoded
`true` (the fit test there is commented out). -/
def canFitLabelContentPartZero (_p : AxleProps) : Bool :=
  true

/-- `labelY`, the four (axisSide, labelPosition) cases. -/
def labelY (p : AxleProps) : ℚ :=
  if p.axisSide = AxisSide.bottom ∧ p.labelPosition = LabelPosition.outset then
    p.chartBounds.bottom + p.labelOffset + p.fontSize
  else if p.axisSide = AxisSide.bottom ∧ p.labelPosition = LabelPosition.inset then
    p.yScale.apply p.y2 - p.labelOffset
  else if p.axisSide = AxisSide.top ∧ p.labelPosition = LabelPosition.outset then
    p.yScale.apply p.y1 - p.labelOffset
  else
    p.yScale.apply p.y1 + p.fontSize + p.labelOffset

/-- The rotation `origin` and the `rotateOffset` translation, parametrised by
`getOffsetFromAngle` (a utility that is not among the sources). The guard
`if (!labelRotate)` is JavaScript falsiness: absent or zero rotation gives
the defaults `(undefined, 0)`. -/
def rotateOriginOffset (getOffsetFromAngle : ℚ → ℚ) (p : AxleProps) :
    Option (ℚ × ℚ) × ℚ :=
  match p.labelRotate with
  | none => (none, 0)
  | some r =>
    if r = 0 then (none, 0)
    else if p.axisSide = AxisSide.bottom ∧ p.labelPosition = LabelPosition.outset then
      (some (labelX p + labelWidth p / 2, labelY p),
        |labelWidth p / 2 * getOffsetFromAngle r|)
    else if p.axisSide = AxisSide.bottom ∧ p.labelPosition = LabelPosition.inset then
      (some (labelX p + labelWidth p / 2, labelY p),
        -|labelWidth p / 2 * getOffsetFromAngle r|)
    else if p.axisSide = AxisSide.top ∧ p.labelPosition = LabelPosition.inset then
      (some (labelX p + labelWidth p / 2, labelY p - p.fontSize / 4),
        |labelWidth p / 2 * getOffsetFromAngle r|)
    else
      (some (labelX p + labelWidth p / 2, labelY p - p.fontSize / 4),
        -|labelWidth p / 2 * getOffsetFromAngle r|)

/-- `const p1 = vec(xScale(tick), yScale(y2))`. -/
def p1 (p : AxleProps) : ℚ × ℚ :=
  (p.xScale.apply p.tick, p.yScale.apply p.y2)

/-- `const p2 = vec(xScale(tick), yScale(y1))`. -/
def p2 (p : AxleProps) : ℚ × ℚ :=
  (p.xScale.apply p.tick, p.yScale.apply p.y1)

/-- The gridline part of the returned fragment:
`lineWidth > 0 ? <Points .../> : null`. -/
def lineNodes (p : AxleProps) : List RenderNode :=
  if 0 < p.lineWidth then
    [RenderNode.line (p1 p) (p2 p) p.lineColor p.lineWidth p.linePathEffect]
  else []

/-- The label `<Text/>` node with its geometry. -/
def labelNode (getOffsetFromAngle : ℚ → ℚ) (p : AxleProps) : RenderNode :=
  RenderNode.label (contentX p) (labelX p) (labelY p)
    (rotateOriginOffset getOffsetFromAngle p).2
    (rotateOriginOffset getOffsetFromAngle p).1
    (p.labelRotate.getD 0) p.labelColor

/-- The label part of the fragment in the `Lib` variant:
`font && labelWidth && canFitLabelContent ? <Text .../> : null`
(JavaScript truthiness: a present font, a nonzero width, a true fit test). -/
def labelNodes (getOffsetFromAngle : ℚ → ℚ) (p : AxleProps) : List RenderNode :=
  if p.font.isSome && !(decide (labelWidth p = 0)) && canFitLabelContent p then
    [labelNode getOffsetFromAngle p]
  else []

/-- The label part of the fragment in the `PartZero` variant: the same guard
with the hardcoded `canFitLabelContentPartZero`. -/
def labelNodesPartZero (getOffsetFromAngle : ℚ → ℚ) (p : AxleProps) : List RenderNode :=
  if p.font.isSome && !(decide (labelWidth p = 0)) && canFitLabelContentPartZero p then
    [labelNode getOffsetFromAngle p]
  else []

/-- Everything one `XAxle` draws in `src/lib/.../XAxis.tsx`. -/
def render (getOffsetFromAngle : ℚ → ℚ) (p : AxleProps) : List RenderNode :=
  lineNodes p ++ labelNodes getOffsetFromAngle p

/-- Everything one `XAxle` draws in `src/unnamed/part_000`. -/
def renderPartZero (getOffsetFromAngle : ℚ → ℚ) (p : AxleProps) : List RenderNode :=
  lineNodes p ++ labelNodesPartZero getOffsetFromAngle p

end Axle

namespace Lib

/-- The props of the `XAxis` container in `src/lib/.../XAxis.tsx`.
`tickCount` and `tickValues` are `Option`s because their absence matters
(destructuring default, branch choice). -/
structure XAxisProps extends RestProps where
  xScaleProp : Scale
  yScale : Scale
  tickCount : Option ℕ
  tickValues : Option (List ℚ)
  font : Option Font
  enableRescaling : Bool
  zoom : Option ZoomTransform

/-- `const xScale = zoom ? zoom.rescaleX(xScaleProp) : xScaleProp`. -/
def xScale (p : XAxisProps) : Scale :=
  match p.zoom with
  | some z => z.rescaleX p.xScaleProp
  | none => p.xScaleProp

/-- `const [y1 = 0, y2 = 0] = yScale.domain()`, first element. -/
def y1 (p : XAxisProps) : ℚ :=
  p.yScale.domain.getD 0 0

/-- `const [y1 = 0, y2 = 0] = yScale.domain()`, second element. -/
def y2 (p : XAxisProps) : ℚ :=
  p.yScale.domain.getD 1 0

/-- `const fontSize = font?.getSize() ?? 0`. -/
def fontSize (p : XAxisProps) : ℚ :=
  match p.font with
  | some f => f.size
  | none => 0

/-- `tickCount = DEFAULT_TICK_COUNT` destructuring default. -/
def tickCountEff (p : XAxisProps) : ℕ :=
  p.tickCount.getD DEFAULT_TICK_COUNT

/-- `xTicksNormalized`, parametrised by the d3 tick generator `ticksOf`
(`scale.ticks` is library code that is not among the sources):
an explicit `tickValues` list is down-sampled; otherwise the ticks come from
the rescaled scale when `enableRescaling` is set, else from the incoming
scale. -/
def xTicksNormalized (ticksOf : Scale → ℕ → List ℚ) (p : XAxisProps) : List ℚ :=
  match p.tickValues with
  | some vs => downsampleTicks vs (tickCountEff p)
  | none =>
    if p.enableRescaling then ticksOf (xScale p) (tickCountEff p)
    else ticksOf p.xScaleProp (tickCountEff p)

/-- The props the container passes to the `XAxle` leaf for one tick. -/
def tickProps (p : XAxisProps) (tick : ℚ) : AxleProps :=
  { toRestProps := p.toRestProps
    xScale := xScale p
    yScale := p.yScale
    tick := tick
    y1 := y1 p
    y2 := y2 p
    fontSize := fontSize p
    font := p.font }

/-- Everything one render of the `Lib` `XAxis` draws: the concatenation of
the per-tick fragments. -/
def render (ticksOf : Scale → ℕ → List ℚ) (getOffsetFromAngle : ℚ → ℚ)
    (p : XAxisProps) : List RenderNode :=
  (xTicksNormalized ticksOf p).flatMap
    (fun t => Axle.render getOffsetFromAngle (tickProps p t))

/-- A sequence of renders of the `Lib` `XAxis`. The component owns no ref or
other persistent entity, so each render's output is a function of that
render's props alone. -/
def renderSeq (ticksOf : Scale → ℕ → List ℚ) (getOffsetFromAngle : ℚ → ℚ)
    (ps : List XAxisProps) : List (List RenderNode) :=
  ps.map (render ticksOf getOffsetFromAngle)

end Lib

namespace PartZero

/-- A Skia `Matrix4`, a 16-entry row-major matrix, indexed as a JavaScript
array. -/
def Matrix4 : Type := List ℚ

instance : DecidableEq Matrix4 := by
  unfold Matrix4; infer_instance

/-- The props of the `XAxis` container in `src/unnamed/part_000`.
`matrixValue` is the current contents of the `matrix` shared value
(`matrix?.value`), owned by the enclosing chart and passed down. -/
structure XAxisProps extends RestProps where
  xScaleProp : Scale
  yScale : Scale
  tickCount : Option ℕ
  tickValues : Option (List ℚ)
  font : Option Font
  matrixValue : Option Matrix4

/-- The state the component itself owns across renders:
`const matrixRef = useRef<Matrix4 | undefined | null>(null)`, written by the
`useAnimatedReaction` whenever the matrix shared value changes. -/
def RefState : Type := Option Matrix4

instance : DecidableEq RefState := by
  unfold RefState; infer_instance

/-- The zoom-rescaled x scale of `part_000`: when the persistent
`matrixRef.current` holds a matrix `m`, the scale is
`new ZoomTransform(m[0], m[3], m[7]).rescaleX(xScaleProp)`; otherwise the
incoming scale is used unchanged. -/
def xScale (p : XAxisProps) (st : RefState) : Scale :=
  match st with
  | some m =>
    (ZoomTransform.mk (m.getD 0 0) (m.getD 3 0) (m.getD 7 0)).rescaleX p.xScaleProp
  | none => p.xScaleProp

/-- `const [y1 = 0, y2 = 0] = yScale.domain()`, first element. -/
def y1 (p : XAxisProps) : ℚ :=
  p.yScale.domain.getD 0 0

/-- `const [y1 = 0, y2 = 0] = yScale.domain()`, second element. -/
def y2 (p : XAxisProps) : ℚ :=
  p.yScale.domain.getD 1 0

/-- `const fontSize = font?.getSize() ?? 0`. -/
def fontSize (p : XAxisProps) : ℚ :=
  match p.font with
  | some f => f.size
  | none => 0

/-- `tickCount = DEFAULT_TICK_COUNT` destructuring default. -/
def tickCountEff (p : XAxisProps) : ℕ :=
  p.tickCount.getD DEFAULT_TICK_COUNT

/-- `xTicksNormalized` in `part_000`: the rescaling branch is commented out,
so absent `tickValues` always yields `xScaleProp.ticks(tickCount)`. -/
def xTicksNormalized (ticksOf : Scale → ℕ → List ℚ) (p : XAxisProps) : List ℚ :=
  match p.tickValues with
  | some vs => downsampleTicks vs (tickCountEff p)
  | none => ticksOf p.xScaleProp (tickCountEff p)

/-- The props the container passes to the `XAxle` leaf for one tick. -/
def tickProps (p : XAxisProps) (st : RefState) (tick : ℚ) : AxleProps :=
  { toRestProps := p.toRestProps
    xScale := xScale p st
    yScale := p.yScale
    tick := tick
    y1 := y1 p
    y2 := y2 p
    fontSize := fontSize p
    font := p.font }

/-- Everything one render of the `part_000` `XAxis` draws, given the
persistent `matrixRef` contents at render time. -/
def render (ticksOf : Scale → ℕ → List ℚ) (getOffsetFromAngle : ℚ → ℚ)
    (p : XAxisProps) (st : RefState) : List RenderNode :=
  (xTicksNormalized ticksOf p).flatMap
    (fun t => Axle.renderPartZero getOffsetFromAngle (tickProps p st t))

/-- One render step: the output is drawn from the current `matrixRef`
contents, and afterwards the `useAnimatedReaction` copies the matrix shared
value into the ref. -/
def step (ticksOf : Scale → ℕ → List ℚ) (getOffsetFromAngle : ℚ → ℚ)
    (p : XAxisProps) (st : RefState) : List RenderNode × RefState :=
  (render ticksOf getOffsetFromAngle p st, p.matrixValue)

/-- A sequence of renders of the `part_000` `XAxis`, threading the
persistent `matrixRef` state. -/
def renderSeq (ticksOf : Scale → ℕ → List ℚ) (getOffsetFromAngle : ℚ → ℚ)
    (ps : List XAxisProps) (st : RefState) : List (List RenderNode) :=
  match ps with
  | [] => []
  | p :: rest =>
    let out := step ticksOf getOffsetFromAngle p st
    out.1 :: renderSeq ticksOf getOffsetFromAngle rest out.2

end PartZero

section Helpers

theorem mem_lineNodes {p : AxleProps} {n : RenderNode} (h : n ∈ Axle.lineNodes p) :
    n = RenderNode.line (Axle.p1 p) (Axle.p2 p) p.lineColor p.lineWidth p.linePathEffect ∧
      0 < p.lineWidth := by
  unfold Axle.lineNodes at h
  split at h
  case isTrue hw => simp at h; exact ⟨h, hw⟩
  case isFalse => simp at h

theorem lineNodes_isLine {p : AxleProps} {n : RenderNode} (h : n ∈ Axle.lineNodes p) :
    n.isLine = true := by
  rw [(mem_lineNodes h).1]; rfl

theorem mem_labelNodes {g : ℚ → ℚ} {p : AxleProps} {n : RenderNode}
    (h : n ∈ Axle.labelNodes g p) :
    n = Axle.labelNode g p ∧ p.font.isSome = true ∧ Axle.labelWidth p ≠ 0 ∧
      Axle.canFitLabelContent p = true := by
  unfold Axle.labelNodes at h
  split at h
  case isTrue hg =>
    simp only [Bool.and_eq_true, Bool.not_eq_true', decide_eq_false_iff_not] at hg
    simp at h
    exact ⟨h, hg.1.1, hg.1.2, hg.2⟩
  case isFalse => simp at h

theorem mem_labelNodesPartZero {g : ℚ → ℚ} {p : AxleProps} {n : RenderNode}
    (h : n ∈ Axle.labelNodesPartZero g p) :
    n = Axle.labelNode g p ∧ p.font.isSome = true ∧ Axle.labelWidth p ≠ 0 := by
  unfold Axle.labelNodesPartZero at h
  split at h
  case isTrue hg =>
    simp only [Bool.and_eq_true, Bool.not_eq_true', decide_eq_false_iff_not] at hg
    simp at h
    exact ⟨h, hg.1.1, hg.1.2⟩
  case isFalse => simp at h

theorem labelNodes_isLabel {g : ℚ → ℚ} {p : AxleProps} {n : RenderNode}
    (h : n ∈ Axle.labelNodes g p) : n.isLabel = true := by
  rw [(mem_labelNodes h).1]; rfl

theorem labelNodesPartZero_isLabel {g : ℚ → ℚ} {p : AxleProps} {n : RenderNode}
    (h : n ∈ Axle.labelNodesPartZero g p) : n.isLabel = true := by
  rw [(mem_labelNodesPartZero h).1]; rfl

theorem canFit_spec {p : AxleProps} (h : Axle.canFitLabelContent p = true) :
    p.chartBounds.left ≤ p.xScale.apply p.tick ∧
    p.xScale.apply p.tick ≤ p.chartBounds.right ∧
    (p.yAxisSide = YAxisSide.left →
      Axle.labelX p + Axle.labelWidth p < p.chartBounds.right) ∧
    (p.yAxisSide = YAxisSide.right → p.chartBounds.left < Axle.labelX p) := by
  unfold Axle.canFitLabelContent at h
  simp only [Bool.and_eq_true, decide_eq_true_eq] at h
  refine ⟨h.1.1, h.1.2, ?_, ?_⟩
  · intro hside
    rw [hside] at h
    simpa using h.2
  · intro hside
    rw [hside] at h
    simpa using h.2

end Helpers

section Fixtures

/-- A concrete linear scale mapping domain `[0, 10]` to range `[0, 100]`. -/
def scaleC : Scale :=
  { domain := [0, 10], range := [0, 100] }

/-- A concrete linear scale mapping domain `[0, 1]` to range `[0, 200]`. -/
def scaleWideC : Scale :=
  { domain := [0, 1], range := [0, 200] }

/-- Concrete chart bounds. -/
def boundsC : ChartBounds :=
  { left := 0, right := 100, top := 0, bottom := 80 }

/-- A concrete font: size 12, one glyph per character, 7 pixels per glyph. -/
def fontC : Font :=
  { size := 12
    getGlyphIDs := fun s => List.range s.length
    getGlyphWidths := fun ids => ids.map (fun _ => 7) }

/-- Concrete forwarded props. -/
def restC : RestProps :=
  { axisSide := AxisSide.bottom
    yAxisSide := YAxisSide.left
    labelPosition := LabelPosition.outset
    labelRotate := none
    labelOffset := 2
    labelColor := "#000000"
    lineWidth := 1
    lineColor := "hsla(0, 0%, 0%, 0.25)"
    formatXLabel := fun _ => "ab"
    ix := []
    isNumericalData := true
    linePathEffect := false
    chartBounds := boundsC }

/-- A concrete stand-in for `getOffsetFromAngle`. -/
def gofaC : ℚ → ℚ :=
  fun _ => 0

/-- A concrete stand-in for the d3 tick generator. -/
def ticksOfC : Scale → ℕ → List ℚ :=
  fun _ _ => []

/-- Leaf props whose tick lands inside the chart bounds. -/
def inBoundsAxleC : AxleProps :=
  { toRestProps := restC
    xScale := scaleC
    yScale := scaleC
    tick := 5
    y1 := 0
    y2 := 10
    fontSize := 12
    font := some fontC }

/-- Leaf props whose tick lands at x = 200, right of `boundsC.right` = 100. -/
def outOfBoundsAxleC : AxleProps :=
  { toRestProps := restC
    xScale := scaleWideC
    yScale := scaleC
    tick := 1
    y1 := 0
    y2 := 10
    fontSize := 12
    font := some fontC }

/-- Concrete container props for the `Lib` variant. -/
def libPropsC : Lib.XAxisProps :=
  { toRestProps := restC
    xScaleProp := scaleC
    yScale := scaleC
    tickCount := none
    tickValues := some [1, 2, 3]
    font := none
    enableRescaling := false
    zoom := none }

/-- Concrete container props for the `Lib` variant with a zoom transform. -/
def libPropsZoomC : Lib.XAxisProps :=
  { toRestProps := restC
    xScaleProp := scaleC
    yScale := scaleC
    tickCount := none
    tickValues := none
    font := none
    enableRescaling := false
    zoom := some (ZoomTransform.mk 2 0 0) }

/-- A concrete zoom matrix: scale 2 along x, no translation. -/
def matC : PartZero.Matrix4 :=
  [2, 0, 0, 0, 0, 1, 0, 0, 0, 0, 1, 0, 0, 0, 0, 1]

/-- Concrete container props for the `part_000` variant, with the zoom matrix
present in the matrix shared value. -/
def partPropsC : PartZero.XAxisProps :=
  { toRestProps := restC
    xScaleProp := scaleC
    yScale := scaleC
    tickCount := none
    tickValues := some [1]
    font := none
    matrixValue := some matC }

end Fixtures

/-- C1, counterexample: in the `part_000` variant the fit test is hardcoded
`true`, so at these concrete props a text label is drawn although the tick's
scaled x position (200) lies right of `chartBounds.right` (100) — the claim
as stated is false of this code. -/
theorem C1_counterexample :
    (Axle.renderPartZero gofaC outOfBoundsAxleC).any RenderNode.isLabel = true ∧
      ¬ (outOfBoundsAxleC.xScale.apply outOfBoundsAxleC.tick ≤
          outOfBoundsAxleC.chartBounds.right) := by
  constructor
  · norm_num [Axle.renderPartZero, Axle.lineNodes, Axle.labelNodesPartZero,
      Axle.labelNode, Axle.canFitLabelContentPartZero, Axle.labelWidth, Axle.labelX,
      Axle.contentX, Axle.val, outOfBoundsAxleC, fontC, restC, scaleC, scaleWideC,
      boundsC, Scale.apply, List.replicate, show "ab".length = 2 from rfl,
      RenderNode.isLabel, List.any]
  · norm_num [outOfBoundsAxleC, scaleWideC, restC, boundsC, Scale.apply]

/-- C1 (amended): in the `src/lib` variant of `XAxle`, a text label is drawn
only if the tick's scaled x position lies within the chart bounds and the
label passes the per-side fit test; a label failing this test is not
rendered there. (In `part_000` the fit test is hardcoded `true`.) -/
theorem C1_label_fit (g : ℚ → ℚ) (p : AxleProps) (n : RenderNode)
    (hn : n ∈ Axle.render g p) (hl : n.isLabel = true) :
    p.chartBounds.left ≤ p.xScale.apply p.tick ∧
    p.xScale.apply p.tick ≤ p.chartBounds.right ∧
    (p.yAxisSide = YAxisSide.left →
      Axle.labelX p + Axle.labelWidth p < p.chartBounds.right) ∧
    (p.yAxisSide = YAxisSide.right → p.chartBounds.left < Axle.labelX p) := by
  unfold Axle.render at hn
  rcases List.mem_append.mp hn with h | h
  · rw [(mem_lineNodes h).1] at hl
    simp [RenderNode.isLabel] at hl
  · exact canFit_spec (mem_labelNodes h).2.2.2

/-- C1, witness: at concrete in-bounds props a label is emitted, and the
theorem yields the fit inequalities there. -/
theorem C1_label_fit_witness :
    inBoundsAxleC.chartBounds.left ≤ inBoundsAxleC.xScale.apply inBoundsAxleC.tick ∧
    inBoundsAxleC.xScale.apply inBoundsAxleC.tick ≤ inBoundsAxleC.chartBounds.right ∧
    (inBoundsAxleC.yAxisSide = YAxisSide.left →
      Axle.labelX inBoundsAxleC + Axle.labelWidth inBoundsAxleC <
        inBoundsAxleC.chartBounds.right) ∧
    (inBoundsAxleC.yAxisSide = YAxisSide.right →
      inBoundsAxleC.chartBounds.left < Axle.labelX inBoundsAxleC) :=
  C1_label_fit gofaC inBoundsAxleC (Axle.labelNode gofaC inBoundsAxleC)
    (by
      norm_num [Axle.render, Axle.lineNodes, Axle.labelNodes, Axle.canFitLabelContent,
        Axle.labelWidth, Axle.labelX, Axle.contentX, Axle.val, inBoundsAxleC, fontC,
        restC, scaleC, boundsC, Scale.apply, List.replicate,
        show "ab".length = 2 from rfl])
    rfl

/-- C2: an explicit `tickValues` list is down-sampled by
`downsampleTicks(tickValues, tickCount)` (to at most `tickCount` entries)
regardless of any zoom/rescale setting; absent `tickValues`, the ticks come
from the x scale's tick generator with `tickCount` defaulting to
`DEFAULT_TICK_COUNT` = 5 (in `src/lib`, from the rescaled scale when
`enableRescaling` is set, else from the incoming scale; in `part_000`,
always from the incoming scale). -/
theorem C2_tick_set (ticksOf : Scale → ℕ → List ℚ) (p : Lib.XAxisProps)
    (q : PartZero.XAxisProps) :
    (∀ vs, p.tickValues = some vs →
      Lib.xTicksNormalized ticksOf p = downsampleTicks vs (Lib.tickCountEff p) ∧
      (Lib.xTicksNormalized ticksOf p).length ≤ Lib.tickCountEff p) ∧
    (p.tickValues = none →
      Lib.xTicksNormalized ticksOf p =
        (if p.enableRescaling then ticksOf (Lib.xScale p) (Lib.tickCountEff p)
         else ticksOf p.xScaleProp (Lib.tickCountEff p))) ∧
    (∀ vs, q.tickValues = some vs →
      PartZero.xTicksNormalized ticksOf q = downsampleTicks vs (PartZero.tickCountEff q) ∧
      (PartZero.xTicksNormalized ticksOf q).length ≤ PartZero.tickCountEff q) ∧
    (q.tickValues = none →
      PartZero.xTicksNormalized ticksOf q = ticksOf q.xScaleProp (PartZero.tickCountEff q)) ∧
    (p.tickCount = none → Lib.tickCountEff p = DEFAULT_TICK_COUNT) ∧
    (q.tickCount = none → PartZero.tickCountEff q = DEFAULT_TICK_COUNT) ∧
    DEFAULT_TICK_COUNT = 5 := by
  refine ⟨?_, ?_, ?_, ?_, ?_, ?_, rfl⟩
  · intro vs hv
    unfold Lib.xTicksNormalized
    rw [hv]
    exact ⟨rfl, downsampleTicks_length_le _ _⟩
  · intro hv
    unfold Lib.xTicksNormalized
    rw [hv]
  · intro vs hv
    unfold PartZero.xTicksNormalized
    rw [hv]
    exact ⟨rfl, downsampleTicks_length_le _ _⟩
  · intro hv
    unfold PartZero.xTicksNormalized
    rw [hv]
  · intro hc
    unfold Lib.tickCountEff
    rw [hc]
    rfl
  · intro hc
    unfold PartZero.tickCountEff
    rw [hc]
    rfl

/-- C2, witness: with an explicit three-element tick list and no `tickCount`
prop, the rendered tick set is the down-sampled list, and the default tick
count applies. -/
theorem C2_tick_set_witness :
    Lib.xTicksNormalized ticksOfC libPropsC =
      downsampleTicks [1, 2, 3] (Lib.tickCountEff libPropsC) ∧
    PartZero.tickCountEff partPropsC = DEFAULT_TICK_COUNT := by
  have T := C2_tick_set ticksOfC libPropsC partPropsC
  exact ⟨(T.1 [1, 2, 3] rfl).1, T.2.2.2.2.2.1 rfl⟩

/-- C3: when a zoom transform is supplied, the coordinate mapping passed to
every tick is the zoom-rescaled x scale (`zoom.rescaleX(xScaleProp)` in
`src/lib`; in `part_000` a `ZoomTransform` built from matrix entries 0, 3
and 7); with no zoom transform the incoming x scale is used unchanged. -/
theorem C3_zoom_rescaling (p : Lib.XAxisProps) (q : PartZero.XAxisProps)
    (st : PartZero.RefState) :
    (∀ z, p.zoom = some z → Lib.xScale p = z.rescaleX p.xScaleProp) ∧
    (p.zoom = none → Lib.xScale p = p.xScaleProp) ∧
    (∀ t, (Lib.tickProps p t).xScale = Lib.xScale p) ∧
    (∀ m, st = some m →
      PartZero.xScale q st =
        (ZoomTransform.mk (m.getD 0 0) (m.getD 3 0) (m.getD 7 0)).rescaleX q.xScaleProp) ∧
    (st = none → PartZero.xScale q st = q.xScaleProp) ∧
    (∀ t, (PartZero.tickProps q st t).xScale = PartZero.xScale q st) := by
  refine ⟨?_, ?_, fun t => rfl, ?_, ?_, fun t => rfl⟩
  · intro z hz
    unfold Lib.xScale
    rw [hz]
  · intro hz
    unfold Lib.xScale
    rw [hz]
  · intro m hm
    unfold PartZero.xScale
    rw [hm]
  · intro hm
    unfold PartZero.xScale
    rw [hm]

/-- C3, witness: with the concrete zoom transform `(k, x, y) = (2, 0, 0)` the
mapping is the rescaled scale; with an empty `matrixRef` it is unchanged. -/
theorem C3_zoom_rescaling_witness :
    Lib.xScale libPropsZoomC =
      (ZoomTransform.mk 2 0 0).rescaleX libPropsZoomC.xScaleProp ∧
    PartZero.xScale partPropsC none = partPropsC.xScaleProp := by
  have T := C3_zoom_rescaling libPropsZoomC partPropsC none
  exact ⟨T.1 (ZoomTransform.mk 2 0 0) rfl, T.2.2.2.2.1 rfl⟩

/-- C4: the per-tick gridline segment is vertical — its endpoints are
`(xScale(tick), yScale(y2))` and `(xScale(tick), yScale(y1))`, sharing their
x coordinate — and `y1`, `y2` passed down by both containers are the first
two elements of the y scale's domain, defaulting to 0 when absent. -/
theorem C4_gridline_vertical (p : AxleProps) (q : Lib.XAxisProps)
    (q0 : PartZero.XAxisProps) (st : PartZero.RefState) (t : ℚ) :
    Axle.p1 p = (p.xScale.apply p.tick, p.yScale.apply p.y2) ∧
    Axle.p2 p = (p.xScale.apply p.tick, p.yScale.apply p.y1) ∧
    (Axle.p1 p).1 = (Axle.p2 p).1 ∧
    (∀ n, n ∈ Axle.lineNodes p →
      n = RenderNode.line (Axle.p1 p) (Axle.p2 p) p.lineColor p.lineWidth
        p.linePathEffect) ∧
    (Lib.tickProps q t).y1 = q.yScale.domain.getD 0 0 ∧
    (Lib.tickProps q t).y2 = q.yScale.domain.getD 1 0 ∧
    (PartZero.tickProps q0 st t).y1 = q0.yScale.domain.getD 0 0 ∧
    (PartZero.tickProps q0 st t).y2 = q0.yScale.domain.getD 1 0 :=
  ⟨rfl, rfl, rfl, fun _ h => (mem_lineNodes h).1, rfl, rfl, rfl, rfl⟩

/-- C4, witness: the concrete emitted gridline node is the vertical segment
through `xScale(tick)`. -/
theorem C4_gridline_vertical_witness :
    RenderNode.line (Axle.p1 inBoundsAxleC) (Axle.p2 inBoundsAxleC)
        inBoundsAxleC.lineColor inBoundsAxleC.lineWidth inBoundsAxleC.linePathEffect =
      RenderNode.line (Axle.p1 inBoundsAxleC) (Axle.p2 inBoundsAxleC)
        inBoundsAxleC.lineColor inBoundsAxleC.lineWidth inBoundsAxleC.linePathEffect :=
  (C4_gridline_vertical inBoundsAxleC libPropsC partPropsC none 5).2.2.2.1
    (RenderNode.line (Axle.p1 inBoundsAxleC) (Axle.p2 inBoundsAxleC)
      inBoundsAxleC.lineColor inBoundsAxleC.lineWidth inBoundsAxleC.linePathEffect)
    (by norm_num [Axle.lineNodes, inBoundsAxleC, restC])

/-- C5: the label baseline y coordinate by (axisSide, labelPosition) case:
bottom+outset is `chartBounds.bottom + labelOffset + fontSize`; bottom+inset
is `yScale(y2) - labelOffset`; top+outset is `yScale(y1) - labelOffset`;
top+inset is `yScale(y1) + fontSize + labelOffset`. -/
theorem C5_labelY_cases (p : AxleProps) :
    (p.axisSide = AxisSide.bottom → p.labelPosition = LabelPosition.outset →
      Axle.labelY p = p.chartBounds.bottom + p.labelOffset + p.fontSize) ∧
    (p.axisSide = AxisSide.bottom → p.labelPosition = LabelPosition.inset →
      Axle.labelY p = p.yScale.apply p.y2 - p.labelOffset) ∧
    (p.axisSide = AxisSide.top → p.labelPosition = LabelPosition.outset →
      Axle.labelY p = p.yScale.apply p.y1 - p.labelOffset) ∧
    (p.axisSide = AxisSide.top → p.labelPosition = LabelPosition.inset →
      Axle.labelY p = p.yScale.apply p.y1 + p.fontSize + p.labelOffset) := by
  refine ⟨?_, ?_, ?_, ?_⟩ <;> intro h1 h2 <;> simp [Axle.labelY, h1, h2]

/-- C5, witness: the bottom+outset case at concrete props. -/
theorem C5_labelY_cases_witness :
    Axle.labelY inBoundsAxleC =
      inBoundsAxleC.chartBounds.bottom + inBoundsAxleC.labelOffset +
        inBoundsAxleC.fontSize :=
  (C5_labelY_cases inBoundsAxleC).1 rfl rfl

/-- Leaf props with a 45-degree label rotation, bottom axis, outset labels. -/
def rotAxleC : AxleProps :=
  { toRestProps := { restC with labelRotate := some 45 }
    xScale := scaleC
    yScale := scaleC
    tick := 5
    y1 := 0
    y2 := 10
    fontSize := 12
    font := some fontC }

/-- C6: with a nonzero `labelRotate`, the rotation origin is the horizontal
center of the label (`labelX + labelWidth/2`, at `labelY` for bottom axes and
`labelY - fontSize/4` for top axes) and the vertical rotation offset is
`|(labelWidth/2) * getOffsetFromAngle(labelRotate)|`, positive for
(bottom, outset) and (top, inset), negative for (bottom, inset) and
(top, outset); with `labelRotate` absent or zero the offset is 0, the origin
is undefined, and the label node carries rotation angle 0. -/
theorem C6_label_rotation (g : ℚ → ℚ) (p : AxleProps) :
    ((p.labelRotate = none ∨ p.labelRotate = some 0) →
      Axle.rotateOriginOffset g p = (none, 0)) ∧
    ((p.labelRotate = none ∨ p.labelRotate = some 0) →
      Axle.labelNode g p =
        RenderNode.label (Axle.contentX p) (Axle.labelX p) (Axle.labelY p) 0 none 0
          p.labelColor) ∧
    (∀ r, p.labelRotate = some r → r ≠ 0 →
      (p.axisSide = AxisSide.bottom → p.labelPosition = LabelPosition.outset →
        Axle.rotateOriginOffset g p =
          (some (Axle.labelX p + Axle.labelWidth p / 2, Axle.labelY p),
            |Axle.labelWidth p / 2 * g r|)) ∧
      (p.axisSide = AxisSide.bottom → p.labelPosition = LabelPosition.inset →
        Axle.rotateOriginOffset g p =
          (some (Axle.labelX p + Axle.labelWidth p / 2, Axle.labelY p),
            -|Axle.labelWidth p / 2 * g r|)) ∧
      (p.axisSide = AxisSide.top → p.labelPosition = LabelPosition.inset →
        Axle.rotateOriginOffset g p =
          (some (Axle.labelX p + Axle.labelWidth p / 2, Axle.labelY p - p.fontSize / 4),
            |Axle.labelWidth p / 2 * g r|)) ∧
      (p.axisSide = AxisSide.top → p.labelPosition = LabelPosition.outset →
        Axle.rotateOriginOffset g p =
          (some (Axle.labelX p + Axle.labelWidth p / 2, Axle.labelY p - p.fontSize / 4),
            -|Axle.labelWidth p / 2 * g r|))) := by
  refine ⟨?_, ?_, ?_⟩
  · rintro (h | h) <;> simp [Axle.rotateOriginOffset, h]
  · rintro (h | h) <;> simp [Axle.labelNode, Axle.rotateOriginOffset, h]
  · intro r hr hne
    refine ⟨?_, ?_, ?_, ?_⟩ <;> intro h1 h2 <;>
      simp [Axle.rotateOriginOffset, hr, hne, h1, h2]

/-- C6, witness: at 45 degrees on a bottom/outset axis the origin is the
label's horizontal center at `labelY` and the offset is the positive
magnitude; with no rotation the origin is undefined and the offset 0. -/
theorem C6_label_rotation_witness :
    Axle.rotateOriginOffset gofaC rotAxleC =
      (some (Axle.labelX rotAxleC + Axle.labelWidth rotAxleC / 2, Axle.labelY rotAxleC),
        |Axle.labelWidth rotAxleC / 2 * gofaC 45|) ∧
    Axle.rotateOriginOffset gofaC inBoundsAxleC = (none, 0) := by
  have T1 := C6_label_rotation gofaC rotAxleC
  have T2 := C6_label_rotation gofaC inBoundsAxleC
  exact ⟨(T1.2.2 45 rfl (by norm_num)).1 rfl rfl, T2.1 (Or.inl rfl)⟩

/-- C7: the measured label width is the sum of the per-glyph widths of the
formatted label string (0 when no font is provided), and
`labelX = xScale(tick) - labelWidth/2`, so the label is horizontally centered
on the tick position. -/
theorem C7_label_width_anchor (p : AxleProps) :
    (∀ f, p.font = some f →
      Axle.labelWidth p = (f.getGlyphWidths (f.getGlyphIDs (Axle.contentX p))).sum) ∧
    (p.font = none → Axle.labelWidth p = 0) ∧
    Axle.labelX p = p.xScale.apply p.tick - Axle.labelWidth p / 2 ∧
    Axle.labelX p + Axle.labelWidth p / 2 = p.xScale.apply p.tick := by
  refine ⟨?_, ?_, rfl, ?_⟩
  · intro f hf
    unfold Axle.labelWidth
    rw [hf, List.sum_eq_foldl]
  · intro hf
    unfold Axle.labelWidth
    rw [hf]
  · unfold Axle.labelX
    ring

/-- C7, witness: at concrete props the width is the glyph-width sum and the
label is centered on the scaled tick position. -/
theorem C7_label_width_anchor_witness :
    Axle.labelWidth inBoundsAxleC =
      (fontC.getGlyphWidths (fontC.getGlyphIDs (Axle.contentX inBoundsAxleC))).sum ∧
    Axle.labelX inBoundsAxleC + Axle.labelWidth inBoundsAxleC / 2 =
      inBoundsAxleC.xScale.apply inBoundsAxleC.tick := by
  have T := C7_label_width_anchor inBoundsAxleC
  exact ⟨T.1 fontC rfl, T.2.2.2⟩

/-- C8, counterexample: the `part_000` component owns a `matrixRef` that
persists across renders. In a sequence of two renders with identical props
(with a zoom matrix present in the matrix shared value), the first render
draws with the ref still empty and the second with the ref filled, so the
two renders produce different geometry. -/
theorem C8_counterexample :
    (PartZero.renderSeq ticksOfC gofaC [partPropsC, partPropsC] none).get? 0 ≠
      (PartZero.renderSeq ticksOfC gofaC [partPropsC, partPropsC] none).get? 1 := by
  norm_num [PartZero.renderSeq, PartZero.step, PartZero.render, PartZero.xTicksNormalized,
    PartZero.tickCountEff, downsampleTicks, PartZero.tickProps, PartZero.xScale,
    ZoomTransform.rescaleX, ZoomTransform.invertX, Scale.apply, Scale.invert,
    Axle.renderPartZero, Axle.lineNodes, Axle.labelNodesPartZero, Axle.labelWidth,
    Axle.p1, Axle.p2, partPropsC, matC, scaleC, restC, boundsC, DEFAULT_TICK_COUNT,
    gofaC, ticksOfC, List.flatMap]

/-- C8 (amended): the `src/lib` variant owns no persistent entity, so in any
render sequence its output is a pure function of each render's props — two
renders given identical props produce identical drawing geometry. (The
`part_000` variant instead owns a persistent `matrixRef` on which its
geometry depends.) -/
theorem C8_lib_stateless (ticksOf : Scale → ℕ → List ℚ) (g : ℚ → ℚ)
    (ps : List Lib.XAxisProps) (i j : ℕ) (p : Lib.XAxisProps)
    (hi : ps.get? i = some p) (hj : ps.get? j = some p) :
    (Lib.renderSeq ticksOf g ps).get? i = (Lib.renderSeq ticksOf g ps).get? j := by
  simp only [List.get?_eq_getElem?] at hi hj
  simp [Lib.renderSeq, List.getElem?_map, hi, hj]

/-- C8, witness: two renders of the `src/lib` variant with the same concrete
props produce the same output. -/
theorem C8_lib_stateless_witness :
    (Lib.renderSeq ticksOfC gofaC [libPropsC, libPropsC]).get? 0 =
      (Lib.renderSeq ticksOfC gofaC [libPropsC, libPropsC]).get? 1 :=
  C8_lib_stateless ticksOfC gofaC [libPropsC, libPropsC] 0 1 libPropsC rfl rfl

/-- C9: in both variants, a gridline node is emitted if and only if
`lineWidth > 0`, and a text label node is emitted only when a font is
provided and the measured label width is nonzero — a label whose formatted
text measures to width 0 is never drawn. -/
theorem C9_render_guards (g : ℚ → ℚ) (p : AxleProps) :
    ((∃ n ∈ Axle.render g p, n.isLine = true) ↔ 0 < p.lineWidth) ∧
    ((∃ n ∈ Axle.renderPartZero g p, n.isLine = true) ↔ 0 < p.lineWidth) ∧
    (∀ n ∈ Axle.render g p, n.isLabel = true →
      p.font.isSome = true ∧ Axle.labelWidth p ≠ 0) ∧
    (∀ n ∈ Axle.renderPartZero g p, n.isLabel = true →
      p.font.isSome = true ∧ Axle.labelWidth p ≠ 0) := by
  refine ⟨⟨?_, ?_⟩, ⟨?_, ?_⟩, ?_, ?_⟩
  · rintro ⟨n, hn, hline⟩
    unfold Axle.render at hn
    rcases List.mem_append.mp hn with h | h
    · exact (mem_lineNodes h).2
    · rw [(mem_labelNodes h).1] at hline
      simp [Axle.labelNode, RenderNode.isLine] at hline
  · intro hw
    refine ⟨RenderNode.line (Axle.p1 p) (Axle.p2 p) p.lineColor p.lineWidth
      p.linePathEffect, ?_, rfl⟩
    unfold Axle.render
    apply List.mem_append_left
    unfold Axle.lineNodes
    rw [if_pos hw]
    simp
  · rintro ⟨n, hn, hline⟩
    unfold Axle.renderPartZero at hn
    rcases List.mem_append.mp hn with h | h
    · exact (mem_lineNodes h).2
    · rw [(mem_labelNodesPartZero h).1] at hline
      simp [Axle.labelNode, RenderNode.isLine] at hline
  · intro hw
    refine ⟨RenderNode.line (Axle.p1 p) (Axle.p2 p) p.lineColor p.lineWidth
      p.linePathEffect, ?_, rfl⟩
    unfold Axle.renderPartZero
    apply List.mem_append_left
    unfold Axle.lineNodes
    rw [if_pos hw]
    simp
  · intro n hn hlab
    unfold Axle.render at hn
    rcases List.mem_append.mp hn with h | h
    · rw [(mem_lineNodes h).1] at hlab
      simp [RenderNode.isLabel] at hlab
    · have hmem := mem_labelNodes h
      exact ⟨hmem.2.1, hmem.2.2.1⟩
  · intro n hn hlab
    unfold Axle.renderPartZero at hn
    rcases List.mem_append.mp hn with h | h
    · rw [(mem_lineNodes h).1] at hlab
      simp [RenderNode.isLabel] at hlab
    · have hmem := mem_labelNodesPartZero h
      exact ⟨hmem.2.1, hmem.2.2⟩

/-- C9, witness: at concrete props with `lineWidth` 1 a gridline node is
emitted. -/
theorem C9_render_guards_witness :
    ∃ n ∈ Axle.render gofaC inBoundsAxleC, n.isLine = true :=
  (C9_render_guards gofaC inBoundsAxleC).1.mpr (by norm_num [inBoundsAxleC, restC])

theorem jsIndex_eq_none {ix : List IxVal} {t : ℚ} (h : ¬ validIndex ix t) :
    jsIndex ix t = none := by
  unfold jsIndex
  split
  case isTrue hc =>
    have hlen : ix.length ≤ t.num.toNat := by
      by_contra hlt
      push_neg at hlt
      exact h ⟨hc.1, hc.2, hlt⟩
    simp [List.get?_eq_getElem?, List.getElem?_eq_none hlen]
  case isFalse => rfl

theorem jsIndex_eq_get {ix : List IxVal} {t : ℚ} (h : validIndex ix t) :
    jsIndex ix t = ix.get? t.num.toNat ∧ jsIndex ix t ≠ none := by
  unfold jsIndex
  rw [if_pos ⟨h.1, h.2.1⟩]
  refine ⟨rfl, ?_⟩
  simp [List.get?_eq_getElem?, List.getElem?_eq_getElem h.2.2]

/-- The JavaScript number-to-string conversion, as an opaque concrete
stand-in for witnesses. -/
def numToStringC : ℚ → String :=
  fun _ => "0"

/-- Leaf props with non-numerical data, an empty input-field list and the
default label formatter: tick 1 is out of range. -/
def lookupAxleC : AxleProps :=
  { toRestProps :=
      { restC with
        isNumericalData := false
        formatXLabel := defaultFormatXLabel numToStringC }
    xScale := scaleC
    yScale := scaleC
    tick := 1
    y1 := 0
    y2 := 10
    fontSize := 12
    font := some fontC }

/-- C10: with non-numerical data the label value is the lookup `ix[tick]`;
for any tick that is not a valid index the lookup yields `undefined` rather
than failing (while a valid index yields the element), and the default
formatter then produces the string `"undefined"`. -/
theorem C10_val_lookup_total (p : AxleProps) (numToString : ℚ → String)
    (h : p.isNumericalData = false) :
    Axle.val p = jsIndex p.ix p.tick ∧
    (validIndex p.ix p.tick →
      Axle.val p = p.ix.get? p.tick.num.toNat ∧ Axle.val p ≠ none) ∧
    (¬ validIndex p.ix p.tick → Axle.val p = none) ∧
    (¬ validIndex p.ix p.tick → p.formatXLabel = defaultFormatXLabel numToString →
      Axle.contentX p = "undefined") := by
  have hv : Axle.val p = jsIndex p.ix p.tick := by
    unfold Axle.val
    rw [h]
    simp
  refine ⟨hv, ?_, ?_, ?_⟩
  · intro hvi
    rw [hv]
    exact jsIndex_eq_get hvi
  · intro hni
    rw [hv]
    exact jsIndex_eq_none hni
  · intro hni hfmt
    unfold Axle.contentX
    rw [hfmt, hv, jsIndex_eq_none hni]
    rfl

/-- C10, witness: with an empty `ix` list, tick 1 is out of range, the
lookup yields `undefined`, and the default formatter renders the label text
`"undefined"`. -/
theorem C10_val_lookup_total_witness :
    Axle.val lookupAxleC = none ∧ Axle.contentX lookupAxleC = "undefined" := by
  have T := C10_val_lookup_total lookupAxleC numToStringC rfl
  have hni : ¬ validIndex lookupAxleC.ix lookupAxleC.tick := by
    simp [validIndex, lookupAxleC, restC]
  exact ⟨T.2.2.1 hni, T.2.2.2 hni rfl⟩
